import Mathlib

/-!
Verification of the TrendMaster extension's task-distribution and
DOM-automation core against its design specification.

The development shallowly embeds the relevant JavaScript source files:
* the service worker (task validator, orchestrator tick, server polling),
* the shared content-script utilities (element resolution, human typing),
* the platform content scripts (Twitter, Instagram, Facebook dispatchers).

JavaScript values that the validator inspects are modelled by `JsVal`;
asynchronous host interactions (network, tabs, DOM lookups) are modelled by
explicit environments and event traces.
-/

namespace TrendMaster

/-! ## A small model of the JavaScript values the validator inspects -/

/-- A JavaScript primitive value as seen by `validateTask`.  `vobjMark`
stands for an arbitrary non-null object value appearing in a field. -/
inductive JsVal where
  | vundefined
  | vnull
  | vbool (b : Bool)
  | vnum (n : Int)
  | vstr (s : String)
  | vobjMark
  deriving DecidableEq, Repr

/-- JavaScript truthiness: `undefined`, `null`, `false`, `0` and `""` are
falsy, everything else is truthy. -/
def jsTruthy : JsVal → Bool
  | .vundefined => false
  | .vnull => false
  | .vbool b => b
  | .vnum n => n != 0
  | .vstr s => s != ""
  | .vobjMark => true

/-- `typeof v === 'string'`. -/
def jsIsString : JsVal → Bool
  | .vstr _ => true
  | _ => false

/-- JavaScript string coercion, as used by template interpolation and by
`RegExp.test`. -/
def jsToString : JsVal → String
  | .vundefined => "undefined"
  | .vnull => "null"
  | .vbool b => if b then "true" else "false"
  | .vnum n => toString n
  | .vstr s => s
  | .vobjMark => "[object Object]"

/-- A raw task payload handed to the validator: either a non-object value
(`prim`) or an object with the four fields the validator reads.  A missing
field is `JsVal.vundefined`; `task.content?.text` is collapsed into the single
`contentText` field (it is `vundefined` both when `content` is absent and when
`content.text` is absent). -/
inductive Payload where
  | prim (v : JsVal)
  | record (id platform task_type contentText : JsVal)
  deriving DecidableEq, Repr

/-! ## String scanning used by the XSS denylist regex -/

/-- Does `pat` occur at the head of `s`? -/
def headMatch : List Char → List Char → Bool
  | [], _ => true
  | _ :: _, [] => false
  | p :: ps, c :: cs => p == c && headMatch ps cs

/-- Does `pat` occur as a contiguous run somewhere in `s`? -/
def hasSub (pat : List Char) : List Char → Bool
  | [] => headMatch pat []
  | c :: cs => headMatch pat (c :: cs) || hasSub pat cs

/-- `hay.includes(pat)` on strings. -/
def strContains (hay pat : String) : Bool :=
  hasSub pat.toList hay.toList

/-- Does `s` start with `pre`?  Computed on the character list. -/
def strStarts (s pre : String) : Bool :=
  headMatch pre.toList s.toList

/-- `s.toLowerCase()`, computed on the character list. -/
def lowerStr (s : String) : String :=
  String.mk (s.toList.map Char.toLower)

/-- A regex `\w` character: ASCII letter, digit or underscore. -/
def isWordChar (c : Char) : Bool :=
  c.isAlpha || c.isDigit || c = '_'

/-- A regex `\s` character (the common whitespace forms). -/
def isSpaceChar (c : Char) : Bool :=
  c = ' ' || c = '\t' || c = '\n' || c = '\r'

/-- Drop the longest run of characters satisfying `p`. -/
def skipChars (p : Char → Bool) : List Char → List Char
  | [] => []
  | c :: cs => if p c then skipChars p cs else c :: cs

/-- Does `on\w+\s*=` match at the head of the (lowercased) character list?
Word characters, space characters and `=` are pairwise disjoint, so the
greedy scan agrees with regex backtracking. -/
def onHandlerAt : List Char → Bool
  | 'o' :: 'n' :: c :: cs =>
    isWordChar c &&
      (match skipChars isSpaceChar (skipChars isWordChar cs) with
       | '=' :: _ => true
       | _ => false)
  | _ => false

/-- Does any alternative of `/<script|javascript:|on\w+\s*=/` match at the
head of the character list? -/
def dangerAt (cs : List Char) : Bool :=
  headMatch "<script".toList cs || headMatch "javascript:".toList cs || onHandlerAt cs

/-- Scan every position of the character list for a denylist match. -/
def dangerScan : List Char → Bool
  | [] => false
  | c :: cs => dangerAt (c :: cs) || dangerScan cs

/-- The validator's denylist test `/<script|javascript:|on\w+\s*=/i.test s`.
The `i` flag is modelled by lowercasing the subject first. -/
def dangerousTest (s : String) : Bool :=
  dangerScan (lowerStr s).toList

/-! ## Task Validator (`validateTask`, service worker lines 269–303) -/

/-- `ALLOWED_TYPES` from the source. -/
def allowedTypes : List String := ["post", "like", "comment", "share", "story"]

/-- `ALLOWED_PLATFORMS` from the source. -/
def allowedPlatforms : List String := ["facebook", "instagram", "twitter"]

/-- `MAX_CONTENT_LENGTH` from the source. -/
def maxContentLength : Nat := 5000

/-- The validator's result record `{valid, reason}`. -/
structure VResult where
  valid : Bool
  reason : Option String
  deriving DecidableEq, Repr

/-- Does `v?.toLowerCase()` throw a `TypeError`?  It does exactly when `v`
is non-null, non-undefined and not a string (optional chaining
short-circuits `undefined`/`null` to `undefined`). -/
def lowerThrows : JsVal → Bool
  | .vbool _ => true
  | .vnum _ => true
  | .vobjMark => true
  | _ => false

/-- `ALLOWED_PLATFORMS.includes(v?.toLowerCase())` when the call does not
throw: `undefined`/`null` short-circuit to `undefined`, which is not in
the list. -/
def platformAllowed : JsVal → Bool
  | .vstr s => allowedPlatforms.contains (lowerStr s)
  | _ => false

/-- `ALLOWED_TYPES.includes(v?.toLowerCase())` when the call does not
throw. -/
def typeAllowed : JsVal → Bool
  | .vstr s => allowedTypes.contains (lowerStr s)
  | _ => false

/-- `task.content.text.length > MAX_CONTENT_LENGTH`: only a string field has
a `length`; on any other value the comparison is `undefined > 5000`, which
is false. -/
def jsLengthGtMax : JsVal → Bool
  | .vstr s => s.length > maxContentLength
  | _ => false

/-- Shallow embedding of `validateTask` (service worker lines 269–303).
An `Except.error` result models an uncaught `TypeError` (thrown when
`.toLowerCase()` is invoked on a non-null, non-string field). -/
def validateTask (task : Payload) : Except Unit VResult :=
  match task with
  | .prim _ => .ok ⟨false, some "Invalid task object"⟩
  | .record id platform ttype ctext =>
    if !(jsTruthy id) || !(jsIsString id) then
      .ok ⟨false, some "Missing task ID"⟩
    else if lowerThrows platform then
      .error ()
    else if !(platformAllowed platform) then
      .ok ⟨false, some ("Invalid platform: " ++ jsToString platform)⟩
    else if lowerThrows ttype then
      .error ()
    else if !(typeAllowed ttype) then
      .ok ⟨false, some ("Invalid task type: " ++ jsToString ttype)⟩
    else if jsTruthy ctext && jsLengthGtMax ctext then
      .ok ⟨false, some "Content too long"⟩
    else if jsTruthy ctext && dangerousTest (jsToString ctext) then
      .ok ⟨false, some "Suspicious content detected"⟩
    else
      .ok ⟨true, none⟩

/-! ## Orchestrator task execution (`executeTask`, service worker lines 308–370)

`executeTask` validates the task and, only on success, touches the browser:
it queries for an open tab of the platform's base URL, activates it or
creates a new one, sends `EXECUTE_TASK` to the content script, and finally
reports the outcome.  We record every externally visible step as an event.
-/

/-- One externally visible step of `executeTask`. -/
inductive ExecEv where
  | report (taskId : JsVal) (status : String) (err : String)
  | tabQuery (pattern : String)
  | tabUpdateActive (tabId : Nat)
  | tabCreate (url : String)
  | sendExec (tabId : Nat)
  | notify (title msg : String)
  deriving DecidableEq, Repr

/-- Is the event a browser-visible action (tab query/creation/navigation or
a message into a page)?  Server reporting and notifications are not. -/
def ExecEv.browserVisible : ExecEv → Bool
  | .tabQuery _ => true
  | .tabUpdateActive _ => true
  | .tabCreate _ => true
  | .sendExec _ => true
  | _ => false

/-- Does the event hand the task to a platform dispatcher? -/
def ExecEv.isDispatch : ExecEv → Bool
  | .sendExec _ => true
  | _ => false

/-- `PLATFORM_URLS` from the source. -/
def platformUrl (p : String) : Option String :=
  if p = "facebook" then some "https://www.facebook.com"
  else if p = "instagram" then some "https://www.instagram.com"
  else if p = "twitter" then some "https://twitter.com"
  else none

/-- Host environment for one `executeTask` run: the ids of already open tabs
matching the platform pattern, the id a newly created tab would get, and the
outcome of `chrome.tabs.sendMessage` (`Except.error` models a thrown
messaging error, `Option` models a possibly `undefined` response). -/
structure ExecEnv where
  openTabs : List Nat
  newTabId : Nat
  dispatch : Except String (Option (Bool × Option String))

/-- The `id` field a payload's report would carry. -/
def payloadId : Payload → JsVal
  | .prim _ => .vundefined
  | .record id _ _ _ => id

/-- The `platform` field of a payload. -/
def payloadPlatform : Payload → JsVal
  | .prim _ => .vundefined
  | .record _ p _ _ => p

/-- The `task_type` field of a payload. -/
def payloadTaskType : Payload → JsVal
  | .prim _ => .vundefined
  | .record _ _ t _ => t

/-- Shallow embedding of `executeTask` (service worker lines 308–370) as the
list of externally visible events of one run.  `Except.error` models the
uncaught `TypeError` that `validateTask` can throw. -/
def executeTask (task : Payload) (env : ExecEnv) : Except Unit (List ExecEv) :=
  match validateTask task with
  | .error _ => .error ()
  | .ok validation =>
    if validation.valid = false then
      .ok [.report (payloadId task) "rejected" (validation.reason.getD "")]
    else
      let platform := lowerStr (jsToString (payloadPlatform task))
      match platformUrl platform with
      | none => .ok [.report (payloadId task) "failed" "Unknown platform"]
      | some baseUrl =>
        let tabEvs :=
          match env.openTabs with
          | t :: _ => [ExecEv.tabQuery (baseUrl ++ "/*"), ExecEv.tabUpdateActive t]
          | [] => [ExecEv.tabQuery (baseUrl ++ "/*"), ExecEv.tabCreate baseUrl]
        let tabId := match env.openTabs with
          | t :: _ => t
          | [] => env.newTabId
        match env.dispatch with
        | .error msg =>
          .ok (tabEvs ++ [.sendExec tabId, .report (payloadId task) "failed" msg])
        | .ok resp =>
          match resp with
          | some (true, _) =>
            .ok (tabEvs ++ [.sendExec tabId, .report (payloadId task) "completed" "",
                  .notify "Task kész" (platform ++ " - " ++ jsToString (payloadTaskType task))])
          | some (false, e) =>
            .ok (tabEvs ++ [.sendExec tabId,
                  .report (payloadId task) "failed" (e.getD "Unknown error")])
          | none =>
            .ok (tabEvs ++ [.sendExec tabId,
                  .report (payloadId task) "failed" "Unknown error"])

/-! ## Selector Resolution Engine
(`TrendMasterUtils.findElement` / `isVisible`, common utilities lines 81–147)

The document is modelled by a list of elements carrying the style and
geometry fields `isVisible` reads, an accessible name and a text content.
`document.querySelector` on an arbitrary selector string is modelled by the
document's `cssSel` map for selectors that parse as CSS; per the DOM
standard it throws a `SyntaxError` for a selector that does not parse.  The
strategy-convention strings of this code base never parse as CSS: a
path selector starts with `/` (a combinator cannot start a selector) and
the `aria:`/`text:` forms contain an unknown pseudo-class.  The selectors
the aria and text branches *construct* (`[aria-label*="…"]` and
`//*[contains(text(), "…")]`) are interpreted semantically, by substring
search over the element list. -/

/-- One DOM element with the fields the content scripts read. -/
structure Elem where
  display : String
  visibility : String
  opacity : String
  width : Nat
  height : Nat
  ariaLabel : String
  textContent : String
  deriving DecidableEq, Repr

/-- A document state: its elements plus opaque resolution maps for literal
CSS selector strings and literal XPath strings (indices into `elems`). -/
structure Dom where
  elems : List Elem
  cssSel : String → Option Nat
  xpathSel : String → Option Nat

/-- `TrendMasterUtils.isVisible` (common utilities lines 134–147). -/
def isVisible (e : Elem) : Bool :=
  e.display != "none" && e.visibility != "hidden" && e.opacity != "0" &&
    e.width > 0 && e.height > 0

/-- `isVisible` applied to the element at index `i` of the document. -/
def isVisibleAt (d : Dom) (i : Nat) : Bool :=
  match d.elems.get? i with
  | some e => isVisible e
  | none => false

/-- Does a CSS selector string fail to parse?  The three strategy
conventions of this code base produce strings that are not valid CSS, so
`document.querySelector` throws a `SyntaxError` on them. -/
def invalidCss (s : String) : Bool :=
  strStarts s "/" || strStarts s "aria:" || strStarts s "text:"

/-- `document.querySelector` on an arbitrary selector string: a thrown
`SyntaxError` is `Except.error`. -/
def querySelectorE (d : Dom) (s : String) : Except Unit (Option Nat) :=
  if invalidCss s then .error () else .ok (d.cssSel s)

/-- The element found by the constructed selector `[aria-label*="label"]`:
the first element whose `aria-label` contains `label`. -/
def ariaQuery (d : Dom) (label : String) : Option Nat :=
  d.elems.findIdx? (fun e => strContains e.ariaLabel label)

/-- The element found by the constructed XPath
`//*[contains(text(), "txt")]`: the first element whose text contains
`txt`. -/
def textQuery (d : Dom) (txt : String) : Option Nat :=
  d.elems.findIdx? (fun e => strContains e.textContent txt)

/-- One `try { … } catch { }` body of the selector loop (common utilities
lines 86–121) for a single selector string.  A thrown `SyntaxError` from
`querySelector` is caught and the selector is skipped, so the `/`-, `aria:`-
and `text:`-branches below the `querySelector` call are unreachable for
exactly the selector strings they were written for. -/
def trySelector (d : Dom) (s : String) : Option Nat :=
  match querySelectorE d s with
  | .error _ => none
  | .ok first =>
    let e1 := if first.isNone && strStarts s "/" then d.xpathSel s else first
    let e2 := if e1.isNone && strStarts s "aria:" then ariaQuery d (s.drop 5) else e1
    let e3 := if e2.isNone && strStarts s "text:" then textQuery d (s.drop 5) else e2
    match e3 with
    | some i => if isVisibleAt d i then some i else none
    | none => none

/-- One full pass of the `for (const selector of selectors)` loop: the first
selector that yields a visible element wins. -/
def findElementPass (d : Dom) : List String → Option Nat
  | [] => none
  | s :: rest =>
    match trySelector d s with
    | some i => some i
    | none => findElementPass d rest

/-- The retry loop of `findElement` (common utilities lines 84–128) with
explicit time.  `elapsed` is `Date.now() - startTime`; the strategy passes
are synchronous and cost no modelled time; `delays` lists the successive
randomized sleeps (`this.delay(200, 300)`).  The result is `none` when the
modelled sleeps are exhausted before the loop finishes, and otherwise
`some (result, elapsed-at-return)`. -/
def findElementLoop (d : Dom) (sels : List String) (timeout : Nat) :
    List Nat → Nat → Option (Option Nat × Nat)
  | [], elapsed =>
    if elapsed < timeout then
      match findElementPass d sels with
      | some i => some (some i, elapsed)
      | none => none
    else
      some (none, elapsed)
  | dl :: rest, elapsed =>
    if elapsed < timeout then
      match findElementPass d sels with
      | some i => some (some i, elapsed)
      | none => findElementLoop d sels timeout rest (elapsed + dl)
    else
      some (none, elapsed)

/-- `TrendMasterUtils.findElement`: run the retry loop from time zero. -/
def findElement (d : Dom) (sels : List String) (timeout : Nat)
    (delays : List Nat) : Option (Option Nat × Nat) :=
  findElementLoop d sels timeout delays 0

/-! ## Human-Behavior Simulator
(`TrendMasterUtils.humanType` / `typeChar`, common utilities lines 23–76)

The element's editable content is modelled as a character list.  `typeChar`
appends one character (via `execCommand('insertText')` for contenteditable
elements, via the native value setter `element.value + char` otherwise);
`document.execCommand('delete')` removes the character before the caret,
which sits at the end of the content.  The per-character mistake decision
(`Math.random() < mistakeChance`) and the wrong character chosen are
supplied by oracles indexed by the character position. -/

/-- `typeChar`: both the contenteditable and the native-setter paths append
the character at the end of the content. -/
def typeChar (v : List Char) (c : Char) : List Char :=
  v ++ [c]

/-- `document.execCommand('delete')`: remove the character before the caret
(the last character of the content). -/
def deleteOne (v : List Char) : List Char :=
  v.dropLast

/-- The character loop of `humanType`: `full` is `text.length` (the mistake
branch is gated on the *total* text length, `text.length > 10`), `i` the
current index, `v` the content so far. -/
def humanTypeGo (mistake : Nat → Bool) (wrong : Nat → Char) (full : Nat) :
    List Char → Nat → List Char → List Char
  | [], _, v => v
  | c :: cs, i, v =>
    let v1 := if mistake i && decide (full > 10) then
                deleteOne (typeChar v (wrong i))
              else v
    humanTypeGo mistake wrong full cs (i + 1) (typeChar v1 c)

/-- `TrendMasterUtils.humanType element text`: starting from the element's
prior content `v0`, type `text` with simulated mistakes. -/
def humanType (v0 : List Char) (text : String) (mistake : Nat → Bool)
    (wrong : Nat → Char) : List Char :=
  humanTypeGo mistake wrong text.length text.toList 0 v0

/-! ## Platform Action Dispatchers (content scripts)

Each dispatcher action is embedded as a function of its inputs and a page
environment (the outcomes of its element resolutions), returning the
`{success, error}` outcome together with the trace of UI interactions it
performs.  `UIEv.resolve` records a `findElement` call, `UIEv.nav` an
assignment to `window.location.href`, `UIEv.click` a `humanClick` (or
`document.body.click()`), `UIEv.typeText`/`UIEv.setValue` text entry and
`UIEv.upload` a file-input injection. -/

/-- An action outcome `{success, error}`. -/
structure Outcome where
  success : Bool
  error : Option String
  deriving DecidableEq, Repr

/-- One UI interaction performed by a dispatcher action. -/
inductive UIEv where
  | nav (url : String)
  | resolve (target : String)
  | click
  | typeText
  | setValue
  | upload
  deriving DecidableEq, Repr

namespace Twitter

/-- The like button as resolved on the page; `dataTestid` is
`getAttribute('data-testid')` (`none` when the attribute is absent). -/
structure LikeBtn where
  dataTestid : Option String
  deriving DecidableEq, Repr

/-- Page environment for `performLike`: the result of
`findElement(SELECTORS.likeButton)`. -/
structure LikeEnv where
  likeBtn : Option LikeBtn

/-- Twitter `performLike` (twitter content script lines 222–253).  The code
never reads `window.location`: whenever `targetUrl` is truthy it assigns
`window.location.href` unconditionally. -/
def performLike (targetUrl : String) (env : LikeEnv) : Outcome × List UIEv :=
  let navEvs := if targetUrl != "" then [UIEv.nav targetUrl] else []
  let evs := navEvs ++ [UIEv.resolve "likeButton"]
  match env.likeBtn with
  | none => (⟨false, some "Like gomb nem található"⟩, evs)
  | some b =>
    if b.dataTestid = some "unlike" then (⟨true, none⟩, evs)
    else (⟨true, none⟩, evs ++ [UIEv.click])

end Twitter

namespace Instagram

/-- Page environment for Instagram `performLike`: the results of resolving
the unlike affordance (`SELECTORS.unlikeButton`, 2 s timeout) and the like
button (`SELECTORS.likeButton`, 5 s timeout). -/
structure LikeEnv where
  unlikeBtn : Option Unit
  likeBtn : Option Unit

/-- Instagram `performLike` (instagram.js lines 364–395).  Navigation is
unconditional whenever `targetUrl` is truthy. -/
def performLike (targetUrl : String) (env : LikeEnv) : Outcome × List UIEv :=
  let navEvs := if targetUrl != "" then [UIEv.nav targetUrl] else []
  let evs := navEvs ++ [UIEv.resolve "unlikeButton"]
  match env.unlikeBtn with
  | some _ => (⟨true, none⟩, evs)
  | none =>
    let evs := evs ++ [UIEv.resolve "likeButton"]
    match env.likeBtn with
    | none => (⟨false, some "Like gomb nem található"⟩, evs)
    | some _ => (⟨true, none⟩, evs ++ [UIEv.click])

/-- The `content` record handed to a dispatcher action. -/
structure Content where
  text : String
  media_urls : List String
  deriving DecidableEq, Repr

/-- Page environment for `createPost`: resolution results and the outcome
of the image fetch (`fetchErr = some msg` models a thrown fetch error). -/
structure PostEnv where
  newPostBtn : Bool
  fetchErr : Option String
  fileInputAvail : Bool
  nextBtn1 : Bool
  nextBtn2 : Bool
  captionFound : Bool
  captionIsTextarea : Bool
  shareBtn : Bool

/-- Instagram `createPost` (instagram.js lines 139–244).  The media guard
is the first statement of the `try` block: with an empty `media_urls` the
function throws `'Instagram poszthoz kép szükséges'` before any resolution
or interaction, and the local `catch` converts it to a failed outcome. -/
def createPost (content : Content) (env : PostEnv) : Outcome × List UIEv :=
  if content.media_urls = [] then
    (⟨false, some "Instagram poszthoz kép szükséges"⟩, [])
  else
    let evs := [UIEv.resolve "newPostButton"]
    let evs := evs ++ (if env.newPostBtn then [UIEv.click]
                       else [UIEv.nav "https://www.instagram.com/create/style/"])
    match env.fetchErr with
    | some msg => (⟨false, some msg⟩, evs)
    | none =>
      if env.fileInputAvail then
        let evs := evs ++ [UIEv.upload]
        let evs := evs ++ [UIEv.resolve "nextButton"] ++
                   (if env.nextBtn1 then [UIEv.click] else [])
        let evs := evs ++ [UIEv.resolve "nextButton"] ++
                   (if env.nextBtn2 then [UIEv.click] else [])
        let evs := evs ++
          (if content.text != "" then
            [UIEv.resolve "captionInput"] ++
              (if env.captionFound then
                [UIEv.click] ++
                  (if env.captionIsTextarea then [UIEv.setValue] else [UIEv.typeText])
               else [])
           else [])
        let evs := evs ++ [UIEv.resolve "shareButton"]
        if env.shareBtn then (⟨true, none⟩, evs ++ [UIEv.click])
        else (⟨false, some "Megosztás gomb nem található"⟩, evs)
      else (⟨false, some "File input nem található"⟩, evs)

/-- Page environment for `createStory`. -/
structure StoryEnv where
  storyBtn : Bool
  createBtn : Bool
  storyOption : Bool
  fetchErr : Option String
  fileInputAvail : Bool
  textBtn : Bool
  textInput : Bool
  shareStoryBtn : Bool
  yourStoryBtn : Bool

/-- Instagram `createStory` (instagram.js lines 249–359).  The media guard
is again the first statement of the `try` block; the rest of the flow is
best-effort and the function returns success even when the share button was
never found. -/
def createStory (content : Content) (env : StoryEnv) : Outcome × List UIEv :=
  if content.media_urls = [] then
    (⟨false, some "Instagram story-hoz kép szükséges"⟩, [])
  else
    let evs := [UIEv.resolve "storyButton"]
    let evs :=
      if env.storyBtn then evs ++ [UIEv.click]
      else
        evs ++ [UIEv.resolve "newPostButton"] ++
          (if env.createBtn then
             [UIEv.click, UIEv.resolve "addToStoryOption"] ++
               (if env.storyOption then [UIEv.click] else [])
           else [])
    match env.fetchErr with
    | some msg => (⟨false, some msg⟩, evs)
    | none =>
      let evs := evs ++ (if env.fileInputAvail then [UIEv.upload] else [])
      let evs := evs ++
        (if content.text != "" then
          [UIEv.resolve "storyTextButton"] ++
            (if env.textBtn then
              [UIEv.click, UIEv.resolve "textInput"] ++
                (if env.textInput then [UIEv.typeText, UIEv.click] else [])
             else [])
         else [])
      let evs := evs ++ [UIEv.resolve "shareStoryButton"]
      if env.shareStoryBtn then (⟨true, none⟩, evs ++ [UIEv.click])
      else
        let evs := evs ++ [UIEv.resolve "yourStoryOption"]
        if env.yourStoryBtn then (⟨true, none⟩, evs ++ [UIEv.click])
        else (⟨true, none⟩, evs)

end Instagram

namespace Facebook

/-- The like button as resolved on the page: its `aria-pressed` attribute
and whether its class list contains `liked`. -/
structure LikeBtn where
  ariaPressed : Option String
  classLiked : Bool
  deriving DecidableEq, Repr

/-- Page environment for Facebook `performLike`. -/
structure LikeEnv where
  likeBtn : Option LikeBtn

/-- Facebook `performLike` (facebook.js lines 336–369).  This is the one
action that guards navigation with
`targetUrl && !window.location.href.includes(targetUrl)`. -/
def performLike (currentUrl targetUrl : String) (env : LikeEnv) :
    Outcome × List UIEv :=
  let navEvs :=
    if targetUrl != "" && !(strContains currentUrl targetUrl) then
      [UIEv.nav targetUrl]
    else []
  let evs := navEvs ++ [UIEv.resolve "likeButton"]
  match env.likeBtn with
  | none => (⟨false, some "Like gomb nem található"⟩, evs)
  | some b =>
    if b.ariaPressed = some "true" || b.classLiked then (⟨true, none⟩, evs)
    else (⟨true, none⟩, evs ++ [UIEv.click])

end Facebook

/-! ## Orchestrator polling (`fetchTask`, service worker lines 171–228)

The persisted run state and the server round-trips of one poll.  The
network is an oracle environment; the trace records which endpoints were
actually called. -/

/-- The persisted `stats` record. -/
structure Stats where
  tasksCompleted : Nat
  tasksFailed : Nat
  lastError : Option String
  deriving DecidableEq, Repr

/-- The persisted run state (the fields this development reads). -/
structure AgentSt where
  isRunning : Bool
  apiKey : String
  agentId : String
  lastPoll : Option Nat
  stats : Stats
  deriving DecidableEq, Repr

/-- A server endpoint called during a tick. -/
inductive ApiCall where
  | register
  | getTask
  | reportStatus
  deriving DecidableEq, Repr

/-- A task as sent by the server (`content` and `media_urls` may be
absent). -/
structure ServerTask where
  id : String
  platform : String
  task_type : String
  target_url : String
  content : Option String
  media_urls : Option (List String)
  deriving DecidableEq, Repr

/-- The extension-format task built by `fetchTask`. -/
structure ExtTask where
  id : String
  platform : String
  task_type : String
  target_url : String
  content_text : String
  content_media : List String
  deriving DecidableEq, Repr

/-- The format conversion in `fetchTask` (service worker lines 203–212). -/
def convertTask (t : ServerTask) : ExtTask :=
  ⟨t.id, t.platform, t.task_type, t.target_url, t.content.getD "",
    t.media_urls.getD []⟩

/-- Network oracle for one poll: the outcome of `register-agent` (agent id
or thrown error), the outcome of `get-task` (optional task or thrown
error), and `Date.now()`. -/
structure NetEnv where
  registerRes : Except String String
  getTaskRes : Except String (Option ServerTask)
  now : Nat

/-- The `get-task` half of `fetchTask` (service worker lines 190–227): on a
thrown network error only `stats.lastError` is updated; on success
`lastPoll` is set and the task, if any, is converted. -/
def fetchCore (env : NetEnv) (st : AgentSt) (pre : List ApiCall) :
    AgentSt × Option ExtTask × List ApiCall :=
  match env.getTaskRes with
  | .error e =>
    ({ st with stats := { st.stats with lastError := some e } }, none,
      pre ++ [ApiCall.getTask])
  | .ok none => ({ st with lastPoll := some env.now }, none, pre ++ [ApiCall.getTask])
  | .ok (some t) =>
    ({ st with lastPoll := some env.now }, some (convertTask t),
      pre ++ [ApiCall.getTask])

/-- `fetchTask` (service worker lines 171–228).  When the agent is not yet
registered, `registerAgent` is attempted first; a thrown registration error
is caught, logged and the function returns `null` — without calling
`get-task` and without touching `stats`. -/
def fetchTask (env : NetEnv) (st : AgentSt) :
    AgentSt × Option ExtTask × List ApiCall :=
  if !st.isRunning || st.apiKey = "" then (st, none, [])
  else if st.agentId = "" then
    match env.registerRes with
    | .error _ => (st, none, [ApiCall.register])
    | .ok aid => fetchCore env { st with agentId := aid } [ApiCall.register]
  else fetchCore env st []

/-! ## The alarm handler and tick interleaving
(`chrome.alarms.onAlarm` listener, service worker lines 403–425)

The listener is an async function: it suspends at the jitter sleep, at the
network round-trips inside `fetchTask` and at the tab/messaging waits
inside `executeTask`, and the alarm scheduler is free to deliver the next
alarm while a previous invocation is suspended.  One invocation is
modelled as a phase machine whose transitions are read off the listener's
code; note that the only state consulted before fetching is
`alarm.name === CONFIG.POLL_ALARM_NAME` and `state.isRunning` — the
persisted state has no in-flight/busy field at all (`DEFAULT_STATE`,
lines 37–51), and no tick transition writes `isRunning`. -/

/-- `CONFIG.POLL_ALARM_NAME`. -/
def pollAlarmName : String := "trendmaster-poll"

/-- An observable event of one alarm-handler invocation: the `get-task`
request, the `EXECUTE_TASK` hand-off for a task id, and the
`report-task-status` call for a task id. -/
inductive TickEv where
  | fetchCall
  | execCall (id : String)
  | reportCall (id : String) (status : String)
  deriving DecidableEq, Repr

/-- The suspension phases of one alarm-handler invocation: `start` (before
the jitter sleep), `ready` (about to run `fetchTask`), `executing id`
(task handed to the dispatcher, awaiting its response), `done`. -/
inductive TickPhase where
  | start
  | ready
  | executing (id : String)
  | done
  deriving DecidableEq, Repr

/-- Per-invocation oracle: the alarm's name, the task the fetch will yield
(validation assumed to pass), whether the dispatcher reports success, and
`Date.now()` at the poll. -/
structure TickEnv where
  alarmName : String
  served : Option ExtTask
  dispatchOk : Bool
  now : Nat

/-- One atomic segment of the alarm listener, from one suspension point to
the next.  `start`: the listener checks the alarm name and `isRunning` and
then sleeps the jitter.  `ready`: `fetchTask` runs (the `get-task` call is
emitted, `lastPoll` is written) and, if a task arrived, `executeTask`
validates it and hands it to the dispatcher.  `executing`: the dispatcher's
response arrives and `reportTaskStatus` updates the stats.  No transition
consults or writes any busy/in-flight marker. -/
def tickStep (env : TickEnv) (st : AgentSt) :
    TickPhase → AgentSt × TickPhase × List TickEv
  | .start =>
    if env.alarmName != pollAlarmName then (st, .done, [])
    else if !st.isRunning then (st, .done, [])
    else (st, .ready, [])
  | .ready =>
    match env.served with
    | none => ({ st with lastPoll := some env.now }, .done, [.fetchCall])
    | some t =>
      ({ st with lastPoll := some env.now }, .executing t.id,
        [.fetchCall, .execCall t.id])
  | .executing id =>
    if env.dispatchOk then
      ({ st with stats := { st.stats with tasksCompleted := st.stats.tasksCompleted + 1 } },
        .done, [.reportCall id "completed"])
    else
      ({ st with stats := { st.stats with tasksFailed := st.stats.tasksFailed + 1 } },
        .done, [.reportCall id "failed"])
  | .done => (st, .done, [])

/-- Run two listener invocations over the shared persisted state under an
explicit schedule (`false` steps invocation 1, `true` steps invocation 2);
events are tagged with their invocation. -/
def run2 (e1 e2 : TickEnv) : List Bool → AgentSt → TickPhase → TickPhase →
    AgentSt × TickPhase × TickPhase × List (Bool × TickEv)
  | [], st, p1, p2 => (st, p1, p2, [])
  | b :: sched, st, p1, p2 =>
    if b then
      match tickStep e2 st p2 with
      | (st2, p2n, evs) =>
        match run2 e1 e2 sched st2 p1 p2n with
        | (stf, q1, q2, rest) =>
          (stf, q1, q2, evs.map (fun e => (true, e)) ++ rest)
    else
      match tickStep e1 st p1 with
      | (st1, p1n, evs) =>
        match run2 e1 e2 sched st1 p1n p2 with
        | (stf, q1, q2, rest) =>
          (stf, q1, q2, evs.map (fun e => (false, e)) ++ rest)

/-- The number of tasks in flight after a trace: hand-offs minus reports. -/
def inFlight (tr : List (Bool × TickEv)) : Int :=
  (tr.map (fun p =>
    match p.2 with
    | .execCall _ => (1 : Int)
    | .reportCall _ _ => -1
    | _ => 0)).sum

/-- How many `get-task` fetches a trace contains. -/
def fetchCount (tr : List (Bool × TickEv)) : Nat :=
  (tr.filter (fun p => p.2 = TickEv.fetchCall)).length

/-! ## Specification-side predicates and concrete instances

`specRejectsC2` renders the specification's rejection conditions word for
word, to be compared with `validateTask`; `amendedRejectsC2` is the
corrected condition set.  The remaining definitions are concrete inputs
used by witnesses and counterexamples. -/

/-- Modelled from the spec's words, for comparison with `validateTask`:
reject iff the payload is not a well-formed record; `id` is missing or not
a string; `platform` is not in the closed platform enumeration under
case-insensitive comparison; `taskType` is not in the closed action
enumeration; `content.text` exceeds 5000 characters; or `content.text`
matches the denylist.  All other payloads are accepted. -/
def specRejectsC2 (p : Payload) : Bool :=
  match p with
  | .prim _ => true
  | .record id plat ttype ctext =>
    (match id with
     | .vundefined => true
     | .vstr _ => false
     | _ => true) ||
    (match plat with
     | .vstr s => !(allowedPlatforms.contains (lowerStr s))
     | _ => true) ||
    (match ttype with
     | .vstr s => !(allowedTypes.contains s)
     | _ => true) ||
    (match ctext with
     | .vstr s => s.length > maxContentLength || dangerousTest s
     | _ => false)

/-- Amended id condition: missing, not a string, or the empty string. -/
def idRejected : JsVal → Bool
  | .vstr s => s = ""
  | _ => true

/-- Amended platform condition: not a string, or not in the platform
enumeration under case-insensitive comparison. -/
def platRejected : JsVal → Bool
  | .vstr s => !(allowedPlatforms.contains (lowerStr s))
  | _ => true

/-- Amended task-type condition: not a string, or not in the action
enumeration under case-insensitive comparison. -/
def typeRejected : JsVal → Bool
  | .vstr s => !(allowedTypes.contains (lowerStr s))
  | _ => true

/-- Amended content condition: a string longer than the maximum or
matching the denylist; a truthy non-string is screened through its string
coercion. -/
def textRejected : JsVal → Bool
  | .vstr s => s.length > maxContentLength || dangerousTest s
  | v => jsTruthy v && dangerousTest (jsToString v)

/-- The corrected rejection conditions: `id` must additionally be
non-empty, the action enumeration is matched case-insensitively like the
platform one, and a truthy non-string `content.text` is screened through
its string coercion. -/
def amendedRejectsC2 (p : Payload) : Bool :=
  match p with
  | .prim _ => true
  | .record id plat ttype ctext =>
    idRejected id || platRejected plat || typeRejected ttype ||
      textRejected ctext

/-- A payload whose `id` is present and a string, yet empty. -/
def emptyIdPayload : Payload :=
  .record (.vstr "") (.vstr "facebook") (.vstr "post") .vundefined

/-- A task with an unrecognized platform. -/
def invalidPlatformTask : Payload :=
  .record (.vstr "t9") (.vstr "tiktok") (.vstr "post") .vundefined

/-- A benign execution environment: no open tab, dispatcher never
reached. -/
def execEnv0 : ExecEnv := ⟨[], 1, .ok none⟩

/-- A visible element whose accessible name contains `Like`. -/
def likeElem : Elem :=
  ⟨"block", "visible", "1", 10, 10, "Like button", ""⟩

/-- A document whose only element is `likeElem` and on which every literal
CSS selector and literal XPath resolves to nothing. -/
def ariaDom : Dom :=
  { elems := [likeElem], cssSel := fun _ => none, xpathSel := fun _ => none }

/-- A running, keyed state with no registered agent and a clean `stats`. -/
def regSt0 : AgentSt := ⟨true, "k", "", none, ⟨0, 0, none⟩⟩

/-- A network where `register-agent` fails with a network error. -/
def regFailEnv : NetEnv := ⟨.error "network down", .ok none, 7⟩

/-- A Twitter page whose like-button resolution finds the unlike
affordance. -/
def xLikedEnv : Twitter.LikeEnv := ⟨some ⟨some "unlike"⟩⟩

/-- An Instagram page where the unlike affordance is present. -/
def igLikedEnv : Instagram.LikeEnv := ⟨some (), none⟩

/-- A Facebook page whose like button is pressed. -/
def fbLikedEnv : Facebook.LikeEnv := ⟨some ⟨some "true", false⟩⟩

/-- The spec's concrete scenario: text but no media. -/
def helloContent : Instagram.Content := ⟨"Hello world", []⟩

/-- A fully co-operative Instagram post page. -/
def igPostEnv0 : Instagram.PostEnv :=
  ⟨true, none, true, true, true, true, true, true⟩

/-- A fully co-operative Instagram story page. -/
def igStoryEnv0 : Instagram.StoryEnv :=
  ⟨true, true, true, none, true, true, true, true, true⟩

/-- Shared persisted state for the overlapping-tick run. -/
def tickSt0 : AgentSt := ⟨true, "k", "a1", none, ⟨0, 0, none⟩⟩

/-- The task served to the first tick. -/
def tickTask1 : ExtTask := ⟨"t1", "twitter", "like", "u1", "", []⟩

/-- The task served to the second tick. -/
def tickTask2 : ExtTask := ⟨"t2", "twitter", "like", "u2", "", []⟩

/-- Oracle for the first alarm invocation. -/
def tickEnv1 : TickEnv := ⟨pollAlarmName, some tickTask1, true, 10⟩

/-- Oracle for the second alarm invocation, fired while the first is
executing. -/
def tickEnv2 : TickEnv := ⟨pollAlarmName, some tickTask2, true, 40⟩

/-- Deliver the second alarm entirely inside the first tick's execution
window: tick 1 reaches its dispatcher wait, tick 2 then runs to
completion, tick 1 finishes last. -/
def overlapSchedule : List Bool := [false, false, true, true, true, false]

/-! # Theorems -/

/-- The typing loop appends exactly the remaining characters, whatever the
mistake oracle decides: an inserted wrong character is immediately deleted
again. -/
lemma humanTypeGo_append (mistake : Nat → Bool) (wrong : Nat → Char)
    (full : Nat) :
    ∀ (cs : List Char) (i : Nat) (v : List Char),
      humanTypeGo mistake wrong full cs i v = v ++ cs := by
  intro cs
  induction cs with
  | nil => intro i v; simp [humanTypeGo]
  | cons c cs ih =>
    intro i v
    unfold humanTypeGo
    rcases h : mistake i && decide (full > 10) with _ | _
    · simp only [h, Bool.false_eq_true, if_false, ih, typeChar]
      simp
    · simp only [h, if_true, ih, typeChar, deleteOne, List.dropLast_concat]
      simp

/-- C6 (corrected): `humanType element text` finishes with the element's
content equal to its prior content followed by `text` — in particular
exactly `text` whenever the element starts out empty — for every mistake
and wrong-character oracle.  (The original claim's "final content exactly
equal to `text`" only holds for an initially empty element, because
`typeChar` always appends to the existing value.) -/
theorem humanType_final_content (v0 : List Char) (text : String)
    (mistake : Nat → Bool) (wrong : Nat → Char) :
    humanType v0 text mistake wrong = v0 ++ text.toList := by
  unfold humanType
  exact humanTypeGo_append mistake wrong text.length text.toList 0 v0

/-- C6 counterexample to the claim as stated: typing `"hello"` into an
element whose content is already `"x"` ends with `"xhello"`, not
`"hello"` (no mistake-and-correction occurred). -/
theorem humanType_nonempty_initial_content :
    humanType "x".toList "hello" (fun _ => false) (fun _ => 'a') =
      "xhello".toList ∧
    humanType "x".toList "hello" (fun _ => false) (fun _ => 'a') ≠
      "hello".toList := by
  constructor
  · rfl
  · decide

/-- C8: an Instagram `post` or `story` with an empty media list fails fast
inside the dispatcher with the explicit media-required error, with an empty
interaction trace — no element resolution, click, typing, upload or
navigation. -/
theorem instagram_media_required (c : Instagram.Content)
    (pe : Instagram.PostEnv) (se : Instagram.StoryEnv)
    (hm : c.media_urls = []) :
    Instagram.createPost c pe =
      (⟨false, some "Instagram poszthoz kép szükséges"⟩, []) ∧
    Instagram.createStory c se =
      (⟨false, some "Instagram story-hoz kép szükséges"⟩, []) := by
  unfold Instagram.createPost Instagram.createStory
  simp [hm]

/-- C8 witness: the spec's concrete scenario `{text: "Hello world",
mediaUrls: []}` on co-operative pages. -/
theorem instagram_media_required_witness :
    Instagram.createPost helloContent igPostEnv0 =
      (⟨false, some "Instagram poszthoz kép szükséges"⟩, []) ∧
    Instagram.createStory helloContent igStoryEnv0 =
      (⟨false, some "Instagram story-hoz kép szükséges"⟩, []) :=
  instagram_media_required helloContent igPostEnv0 igStoryEnv0 rfl

/-- C4 (code bug): the path/aria/text fallback strategies of `findElement`
are dead code.  On a document whose only element is visible and has an
accessible name containing `Like`, the accessible-name lookup would find it
(`ariaQuery … = some 0`, visible), but `document.querySelector("aria:Like")`
throws a `SyntaxError` (the string is not valid CSS), the surrounding
`catch` skips to the next selector, and the `aria:` branch is never
reached: the strategy pass yields nothing and the whole `findElement` run
returns `null` after its timeout instead of the element. -/
theorem findElement_aria_strategy_unreachable :
    querySelectorE ariaDom "aria:Like" = .error () ∧
    ariaQuery ariaDom "Like" = some 0 ∧
    isVisibleAt ariaDom 0 = true ∧
    findElementPass ariaDom ["aria:Like"] = none ∧
    findElement ariaDom ["aria:Like"] 1000 [250, 250, 250, 250] =
      some (none, 1000) := by
  refine ⟨rfl, rfl, rfl, by decide, by decide⟩

/-- The retry loop of `findElement`, when no pass ever matches, terminates
at the first loop-condition check at or past the timeout: the return time
is at least `timeout` and less than `timeout` plus one maximal polling
sleep (300 ms). -/
lemma findElementLoop_noMatch (d : Dom) (sels : List String) (timeout : Nat)
    (hpass : findElementPass d sels = none) :
    ∀ (delays : List Nat) (elapsed : Nat),
      (∀ x ∈ delays, 200 ≤ x ∧ x ≤ 300) →
      timeout ≤ elapsed + delays.sum →
      elapsed < timeout + 300 →
      ∃ t, findElementLoop d sels timeout delays elapsed = some (none, t) ∧
        timeout ≤ t ∧ t < timeout + 300 := by
  intro delays
  induction delays with
  | nil =>
    intro elapsed _ hsum hin
    refine ⟨elapsed, ?_, by simpa using hsum, hin⟩
    have hge : ¬ elapsed < timeout := by simp at hsum; omega
    simp [findElementLoop, hge]
  | cons dl rest ih =>
    intro elapsed hall hsum hin
    by_cases hlt : elapsed < timeout
    · have hdl : 200 ≤ dl ∧ dl ≤ 300 := hall dl (by simp)
      have hrec := ih (elapsed + dl)
        (fun x hx => hall x (by simp [hx]))
        (by simp [List.sum_cons] at hsum ⊢; omega)
        (by omega)
      obtain ⟨t, hres, ht1, ht2⟩ := hrec
      refine ⟨t, ?_, ht1, ht2⟩
      simp [findElementLoop, hlt, hpass, hres]
    · refine ⟨elapsed, ?_, by omega, hin⟩
      simp [findElementLoop, hlt]

/-- C10: a query whose strategies never yield a visible match terminates
with `NotFound` (`none`) no earlier than the configured timeout and no
later than the timeout plus one polling sleep, for any realization of the
randomized 200–300 ms sleeps (given enough of them to cover the
timeout). -/
theorem findElement_noMatch_timeout (d : Dom) (sels : List String)
    (timeout : Nat) (delays : List Nat)
    (hpass : findElementPass d sels = none)
    (hd : ∀ x ∈ delays, 200 ≤ x ∧ x ≤ 300)
    (hsum : timeout ≤ delays.sum) :
    ∃ t, findElement d sels timeout delays = some (none, t) ∧
      timeout ≤ t ∧ t < timeout + 300 := by
  unfold findElement
  exact findElementLoop_noMatch d sels timeout hpass delays 0 hd
    (by simpa using hsum) (by omega)

/-- C10 witness: a 500 ms timeout with sleeps of 250 ms on a document where
the selector never matches. -/
theorem findElement_noMatch_timeout_witness :
    ∃ t, findElement ariaDom ["#missing"] 500 [250, 250, 250] =
        some (none, t) ∧ 500 ≤ t ∧ t < 500 + 300 :=
  findElement_noMatch_timeout ariaDom ["#missing"] 500 [250, 250, 250]
    (by decide) (by decide) (by decide)

/-- C3: a task whose validation fails is reported to the server with
status `rejected` and its `executeTask` run consists of exactly that one
report: no tab query, tab activation, tab creation or dispatcher hand-off
occurs. -/
theorem executeTask_rejected_no_browser_action (p : Payload) (env : ExecEnv)
    (r : VResult) (hv : validateTask p = .ok r) (hinv : r.valid = false) :
    executeTask p env =
      .ok [ExecEv.report (payloadId p) "rejected" (r.reason.getD "")] ∧
    ∀ evs, executeTask p env = .ok evs →
      evs.all (fun e => !e.browserVisible && !e.isDispatch) = true := by
  have hmain : executeTask p env =
      .ok [ExecEv.report (payloadId p) "rejected" (r.reason.getD "")] := by
    unfold executeTask
    rw [hv]
    simp [hinv]
  refine ⟨hmain, ?_⟩
  intro evs hevs
  rw [hmain] at hevs
  injection hevs with h
  subst h
  simp [ExecEv.browserVisible, ExecEv.isDispatch]

/-- C3 witness: a task with platform `tiktok` fails validation and its run
is the single `rejected` report. -/
theorem executeTask_rejected_no_browser_action_witness :
    executeTask invalidPlatformTask execEnv0 =
      .ok [ExecEv.report (payloadId invalidPlatformTask) "rejected"
        ((some ("Invalid platform: " ++ "tiktok")).getD "")] :=
  (executeTask_rejected_no_browser_action invalidPlatformTask execEnv0
    ⟨false, some ("Invalid platform: " ++ "tiktok")⟩ (by rfl) rfl).1

/-- C5 (corrected): when the agent is unregistered and `register-agent`
throws a network error, `get-task` is not attempted in that tick — but the
state (including `stats.lastError`) is returned unchanged; the claim's
assertion that `stats.lastError` is updated with the failure message does
not hold (only a failing `get-task` call updates it). -/
theorem fetchTask_register_failure (env : NetEnv) (st : AgentSt) (e : String)
    (hr : st.isRunning = true) (hk : st.apiKey ≠ "") (ha : st.agentId = "")
    (he : env.registerRes = .error e) :
    fetchTask env st = (st, none, [ApiCall.register]) ∧
    ApiCall.getTask ∉ (fetchTask env st).2.2 ∧
    (fetchTask env st).1.stats = st.stats := by
  have hmain : fetchTask env st = (st, none, [ApiCall.register]) := by
    unfold fetchTask
    simp [hr, hk, ha, he]
  refine ⟨hmain, ?_, ?_⟩
  · rw [hmain]; simp
  · rw [hmain]

/-- C5 witness: the concrete failing-registration tick. -/
theorem fetchTask_register_failure_witness :
    fetchTask regFailEnv regSt0 = (regSt0, none, [ApiCall.register]) ∧
    ApiCall.getTask ∉ (fetchTask regFailEnv regSt0).2.2 ∧
    (fetchTask regFailEnv regSt0).1.stats = regSt0.stats :=
  fetchTask_register_failure regFailEnv regSt0 "network down" rfl
    (by decide) rfl rfl

/-- C5 counterexample to the claim as stated: after the failing
registration the trace shows `get-task` was not attempted, but
`stats.lastError` is still `none` — it was not updated with the failure
message `"network down"`. -/
theorem fetchTask_register_failure_lastError_unchanged :
    (fetchTask regFailEnv regSt0).2.2 = [ApiCall.register] ∧
    (fetchTask regFailEnv regSt0).1.stats.lastError = none := by
  exact ⟨rfl, rfl⟩

/-- C7: on each of the three platforms, a like action against a target
already in the liked state (Twitter: the resolved button carries
`data-testid="unlike"`; Instagram: an unlike affordance resolves;
Facebook: `aria-pressed="true"` or a `liked` class) returns
`{success: true}` and its trace contains no click. -/
theorem performLike_already_liked (turl curl : String)
    (xenv : Twitter.LikeEnv) (xb : Twitter.LikeBtn)
    (hx : xenv.likeBtn = some xb) (hxu : xb.dataTestid = some "unlike")
    (ienv : Instagram.LikeEnv) (hu : ienv.unlikeBtn = some ())
    (fenv : Facebook.LikeEnv) (fb : Facebook.LikeBtn)
    (hf : fenv.likeBtn = some fb)
    (hfl : fb.ariaPressed = some "true" ∨ fb.classLiked = true) :
    ((Twitter.performLike turl xenv).1.success = true ∧
      UIEv.click ∉ (Twitter.performLike turl xenv).2) ∧
    ((Instagram.performLike turl ienv).1.success = true ∧
      UIEv.click ∉ (Instagram.performLike turl ienv).2) ∧
    ((Facebook.performLike curl turl fenv).1.success = true ∧
      UIEv.click ∉ (Facebook.performLike curl turl fenv).2) := by
  refine ⟨?_, ?_, ?_⟩
  · unfold Twitter.performLike
    rw [hx]
    simp only [hxu]
    constructor
    · simp
    · by_cases h : turl != "" <;> simp [h]
  · unfold Instagram.performLike
    rw [hu]
    constructor
    · simp
    · by_cases h : turl != "" <;> simp [h]
  · unfold Facebook.performLike
    rw [hf]
    have hcond : (fb.ariaPressed = some "true" || fb.classLiked) = true := by
      rcases hfl with h | h
      · simp [h]
      · simp [h]
    simp only [hcond]
    constructor
    · simp
    · by_cases h : (turl != "" && !(strContains curl turl)) = true <;> simp [h]

/-- C7 witness: already-liked pages on all three platforms. -/
theorem performLike_already_liked_witness :
    ((Twitter.performLike "https://x.com/s/1" xLikedEnv).1.success = true ∧
      UIEv.click ∉ (Twitter.performLike "https://x.com/s/1" xLikedEnv).2) ∧
    ((Instagram.performLike "https://x.com/s/1" igLikedEnv).1.success = true ∧
      UIEv.click ∉ (Instagram.performLike "https://x.com/s/1" igLikedEnv).2) ∧
    ((Facebook.performLike "https://www.facebook.com" "https://x.com/s/1"
        fbLikedEnv).1.success = true ∧
      UIEv.click ∉ (Facebook.performLike "https://www.facebook.com"
        "https://x.com/s/1" fbLikedEnv).2) :=
  performLike_already_liked "https://x.com/s/1" "https://www.facebook.com"
    xLikedEnv ⟨some "unlike"⟩ rfl rfl igLikedEnv rfl
    fbLikedEnv ⟨some "true", false⟩ rfl (Or.inl rfl)

/-- C9 (corrected): the conditional-navigation rule holds only for the
Facebook like action (`targetUrl && !location.href.includes(targetUrl)`);
the Twitter and Instagram like actions navigate exactly when `targetUrl`
is truthy, irrespective of the current location, which never enters their
control flow. -/
theorem performLike_navigation (curl turl : String)
    (xenv : Twitter.LikeEnv) (ienv : Instagram.LikeEnv)
    (fenv : Facebook.LikeEnv) :
    (UIEv.nav turl ∈ (Twitter.performLike turl xenv).2 ↔ turl ≠ "") ∧
    (UIEv.nav turl ∈ (Instagram.performLike turl ienv).2 ↔ turl ≠ "") ∧
    (UIEv.nav turl ∈ (Facebook.performLike curl turl fenv).2 ↔
      (turl ≠ "" ∧ strContains curl turl = false)) := by
  refine ⟨?_, ?_, ?_⟩
  · unfold Twitter.performLike
    cases hx : xenv.likeBtn with
    | none => by_cases h : turl = "" <;> simp [h]
    | some b =>
      by_cases hb : b.dataTestid = some "unlike" <;>
        by_cases h : turl = "" <;> simp [hb, h]
  · unfold Instagram.performLike
    cases hu : ienv.unlikeBtn with
    | none =>
      cases hl : ienv.likeBtn with
      | none => by_cases h : turl = "" <;> simp [h]
      | some b => by_cases h : turl = "" <;> simp [h]
    | some u => by_cases h : turl = "" <;> simp [h]
  · unfold Facebook.performLike
    cases hf : fenv.likeBtn with
    | none =>
      by_cases h : turl = "" <;> by_cases hc : strContains curl turl <;>
        simp [h, hc]
    | some b =>
      by_cases hb : (b.ariaPressed = some "true" || b.classLiked) = true <;>
        by_cases h : turl = "" <;> by_cases hc : strContains curl turl <;>
          simp [hb, h, hc]

/-- C9 counterexample to the claim as stated: the Twitter like action does
not read the page location at all, so even when the current location
already equals the target URL — here `https://twitter.com/a/status/1` —
the navigation signal is still emitted. -/
theorem twitter_like_navigates_redundantly :
    UIEv.nav "https://twitter.com/a/status/1" ∈
      (Twitter.performLike "https://twitter.com/a/status/1" xLikedEnv).2 := by
  decide

/-- C1 (code bug): the alarm listener enforces no single-flight guard.
With both alarms named `trendmaster-poll` and `isRunning = true`, the
schedule that delivers the second alarm while the first tick awaits its
dispatcher produces a trace in which the second tick performs its own
`get-task` fetch and `EXECUTE_TASK` hand-off (it is not skipped), two
fetches occur in total, and after the fourth event two tasks are in
flight simultaneously. -/
theorem onAlarm_no_single_flight :
    (run2 tickEnv1 tickEnv2 overlapSchedule tickSt0 .start .start).2.2.2 =
      [(false, .fetchCall), (false, .execCall "t1"),
       (true, .fetchCall), (true, .execCall "t2"),
       (true, .reportCall "t2" "completed"),
       (false, .reportCall "t1" "completed")] ∧
    fetchCount
      ((run2 tickEnv1 tickEnv2 overlapSchedule tickSt0 .start .start).2.2.2) = 2 ∧
    inFlight
      (((run2 tickEnv1 tickEnv2 overlapSchedule tickSt0 .start .start).2.2.2).take 4) = 2 := by
  refine ⟨by decide, by decide, by decide⟩

/-- C2 counterexample to the claim as stated: the payload
`{id: "", platform: "facebook", task_type: "post"}` has an `id` that is
present and a string, a recognised platform and task type and no content,
so the spec's condition list accepts it (`specRejectsC2` is `false`) — yet
`validateTask` rejects it, because the truthiness check `!task.id` also
fails on the empty string. -/
theorem validateTask_empty_id_divergence :
    specRejectsC2 emptyIdPayload = false ∧
    validateTask emptyIdPayload = .ok ⟨false, some "Missing task ID"⟩ := by
  exact ⟨by decide, by rfl⟩

/-- The validator's two content checks, combined, equal the amended
content-rejection clause. -/
lemma ctextReject_eq (ctext : JsVal) :
    ((jsTruthy ctext && jsLengthGtMax ctext) ||
      (jsTruthy ctext && dangerousTest (jsToString ctext))) =
    textRejected ctext := by
  cases ctext with
  | vundefined => rfl
  | vnull => rfl
  | vbool b => cases b <;> rfl
  | vobjMark => rfl
  | vnum n => simp [jsTruthy, jsLengthGtMax, jsToString, textRejected]
  | vstr s =>
    by_cases hs : s = ""
    · subst hs; decide
    · have hs' : (s != "") = true := by simpa using hs
      simp [jsTruthy, jsLengthGtMax, jsToString, textRejected, hs']

/-- If the platform field neither throws nor passes the `includes` test,
the amended platform condition rejects it. -/
lemma platRejected_true_of (v : JsVal) (hthr : lowerThrows v = false)
    (hpa : platformAllowed v = false) : platRejected v = true := by
  cases v <;> simp_all [lowerThrows, platformAllowed, platRejected]

/-- If the platform field passes the `includes` test, the amended platform
condition accepts it. -/
lemma platRejected_false_of (v : JsVal) (hpa : platformAllowed v = true) :
    platRejected v = false := by
  cases v <;> simp_all [platformAllowed, platRejected]

/-- If the task-type field neither throws nor passes the `includes` test,
the amended task-type condition rejects it. -/
lemma typeRejected_true_of (v : JsVal) (hthr : lowerThrows v = false)
    (hta : typeAllowed v = false) : typeRejected v = true := by
  cases v <;> simp_all [lowerThrows, typeAllowed, typeRejected]

/-- If the task-type field passes the `includes` test, the amended
task-type condition accepts it. -/
lemma typeRejected_false_of (v : JsVal) (hta : typeAllowed v = true) :
    typeRejected v = false := by
  cases v <;> simp_all [typeAllowed, typeRejected]

/-- C2 (corrected): for every payload on which the validator returns a
result (it throws a `TypeError` when a payload that survives the id check
has a non-null, non-string `platform` or `task_type`), the result is
invalid exactly under the amended condition list — which additionally
rejects an *empty* `id` string, matches `taskType` case-insensitively like
`platform`, and screens a truthy non-string `content.text` through its
string coercion — and a platform rejection's reason names the offending
platform. -/
theorem validateTask_amended (p : Payload) (r : VResult)
    (h : validateTask p = .ok r) :
    (r.valid = false ↔ amendedRejectsC2 p = true) ∧
    (∀ s, payloadPlatform p = .vstr s →
      jsTruthy (payloadId p) = true → jsIsString (payloadId p) = true →
      allowedPlatforms.contains (lowerStr s) = false →
      r = ⟨false, some ("Invalid platform: " ++ s)⟩) := by
  cases p with
  | prim v =>
    simp only [validateTask] at h
    injection h with h
    subst h
    constructor
    · simp [amendedRejectsC2]
    · intro s hs
      simp [payloadPlatform] at hs
  | record id plat ttype ctext =>
    simp only [validateTask] at h
    cases hcond : (!(jsTruthy id) || !(jsIsString id)) with
    | true =>
      simp only [hcond, eq_self_iff_true, if_true] at h
      injection h with h
      subst h
      refine ⟨⟨fun _ => ?_, fun _ => rfl⟩, ?_⟩
      · cases id with
        | vstr s =>
          have hs : s = "" := by simpa [jsTruthy, jsIsString] using hcond
          subst hs
          simp [amendedRejectsC2, idRejected]
        | vundefined => simp [amendedRejectsC2, idRejected]
        | vnull => simp [amendedRejectsC2, idRejected]
        | vbool b => simp [amendedRejectsC2, idRejected]
        | vnum n => simp [amendedRejectsC2, idRejected]
        | vobjMark => simp [amendedRejectsC2, idRejected]
      · intro s hs htr hstr
        exfalso
        simp only [payloadId] at htr hstr
        rw [htr, hstr] at hcond
        simp at hcond
    | false =>
      simp only [hcond, Bool.false_eq_true, if_false] at h
      have htr : jsTruthy id = true := by
        cases hx : jsTruthy id
        · rw [hx] at hcond; simp at hcond
        · rfl
      have hstr : jsIsString id = true := by
        cases hx : jsIsString id
        · rw [hx] at hcond; simp at hcond
        · rfl
      obtain ⟨s0, rfl⟩ : ∃ s0, id = .vstr s0 := by
        cases id with
        | vstr s => exact ⟨s, rfl⟩
        | vundefined => simp [jsIsString] at hstr
        | vnull => simp [jsIsString] at hstr
        | vbool b => simp [jsIsString] at hstr
        | vnum n => simp [jsIsString] at hstr
        | vobjMark => simp [jsIsString] at hstr
      have hs0 : ¬ s0 = "" := by simpa [jsTruthy] using htr
      have hidr : idRejected (JsVal.vstr s0) = false := by
        simp [idRejected, hs0]
      cases hpthr : lowerThrows plat with
      | true =>
        simp only [hpthr, eq_self_iff_true, if_true] at h
        exact Except.noConfusion h
      | false =>
        simp only [hpthr, Bool.false_eq_true, if_false] at h
        cases hpa : platformAllowed plat with
        | false =>
          simp only [hpa, Bool.not_false, eq_self_iff_true, if_true] at h
          injection h with h
          subst h
          refine ⟨⟨fun _ => ?_, fun _ => rfl⟩, ?_⟩
          · simp [amendedRejectsC2, platRejected_true_of plat hpthr hpa]
          · intro s hs _ _ _
            simp only [payloadPlatform] at hs
            subst hs
            simp [jsToString]
        | true =>
          simp only [hpa, Bool.not_true, Bool.false_eq_true, if_false] at h
          have hreason : ∀ s, payloadPlatform
              (Payload.record (JsVal.vstr s0) plat ttype ctext) =
                JsVal.vstr s →
              allowedPlatforms.contains (lowerStr s) = false → False := by
            intro s hs hcon
            simp only [payloadPlatform] at hs
            subst hs
            simp only [platformAllowed] at hpa
            rw [hcon] at hpa
            simp at hpa
          cases htthr : lowerThrows ttype with
          | true =>
            simp only [htthr, eq_self_iff_true, if_true] at h
            exact Except.noConfusion h
          | false =>
            simp only [htthr, Bool.false_eq_true, if_false] at h
            cases hta : typeAllowed ttype with
            | false =>
              simp only [hta, Bool.not_false, eq_self_iff_true, if_true] at h
              injection h with h
              subst h
              refine ⟨⟨fun _ => ?_, fun _ => rfl⟩, ?_⟩
              · simp [amendedRejectsC2, typeRejected_true_of ttype htthr hta]
              · intro s hs _ _ hcon
                exact absurd (hreason s hs hcon) not_false
            | true =>
              simp only [hta, Bool.not_true, Bool.false_eq_true, if_false] at h
              cases hA : (jsTruthy ctext && jsLengthGtMax ctext) with
              | true =>
                simp only [hA, eq_self_iff_true, if_true] at h
                injection h with h
                subst h
                refine ⟨⟨fun _ => ?_, fun _ => rfl⟩, ?_⟩
                · have hor : textRejected ctext = true := by
                    rw [← ctextReject_eq]; simp [hA]
                  simp [amendedRejectsC2, hor]
                · intro s hs _ _ hcon
                  exact absurd (hreason s hs hcon) not_false
              | false =>
                simp only [hA, Bool.false_eq_true, if_false] at h
                cases hB : (jsTruthy ctext && dangerousTest (jsToString ctext)) with
                | true =>
                  simp only [hB, eq_self_iff_true, if_true] at h
                  injection h with h
                  subst h
                  refine ⟨⟨fun _ => ?_, fun _ => rfl⟩, ?_⟩
                  · have hor : textRejected ctext = true := by
                      rw [← ctextReject_eq]; simp [hB]
                    simp [amendedRejectsC2, hor]
                  · intro s hs _ _ hcon
                    exact absurd (hreason s hs hcon) not_false
                | false =>
                  simp only [hB, Bool.false_eq_true, if_false] at h
                  injection h with h
                  subst h
                  refine ⟨⟨fun hf => ?_, fun hcl => ?_⟩, ?_⟩
                  · exact absurd hf (by simp)
                  · exfalso
                    have hAB : textRejected ctext = false := by
                      rw [← ctextReject_eq]; simp [hA, hB]
                    simp [amendedRejectsC2, hidr,
                      platRejected_false_of plat hpa,
                      typeRejected_false_of ttype hta, hAB] at hcl
                  · intro s hs _ _ hcon
                    exact absurd (hreason s hs hcon) not_false


/-- C2 witness: the amended theorem applied to the over-long-content
payload `{id: "t1", platform: "FaceBook", task_type: "post",
content.text: "hi<script>x"}`. -/
theorem validateTask_amended_witness :
    ((⟨false, some "Suspicious content detected"⟩ : VResult).valid = false ↔
      amendedRejectsC2
        (.record (.vstr "t1") (.vstr "FaceBook") (.vstr "post")
          (.vstr "hi<script>x")) = true) ∧
    (∀ s, payloadPlatform
        (.record (.vstr "t1") (.vstr "FaceBook") (.vstr "post")
          (.vstr "hi<script>x")) = .vstr s →
      jsTruthy (payloadId
        (.record (.vstr "t1") (.vstr "FaceBook") (.vstr "post")
          (.vstr "hi<script>x"))) = true →
      jsIsString (payloadId
        (.record (.vstr "t1") (.vstr "FaceBook") (.vstr "post")
          (.vstr "hi<script>x"))) = true →
      allowedPlatforms.contains (lowerStr s) = false →
      (⟨false, some "Suspicious content detected"⟩ : VResult) =
        ⟨false, some ("Invalid platform: " ++ s)⟩) :=
  validateTask_amended
    (.record (.vstr "t1") (.vstr "FaceBook") (.vstr "post")
      (.vstr "hi<script>x"))
    ⟨false, some "Suspicious content detected"⟩ (by rfl)

end TrendMaster
